import Mathlib

/-!
Verification development for the AllergyGuard repository.

The repository ships a React frontend under `src/allergy_guard/frontend`
whose analysis service (`services/geminiservices.ts`) produces `DishReport`
values, either from a hard-coded mock table (`analyzeDish`) or by
transforming a backend scan response (`analyzeDishFromBackend`).  The
ingredient-to-allergen classification engine itself (backend
`services/allergen_engine.py`) is not part of the available sources, so the
engine is modelled here from the specification; the frontend code is
embedded from the TypeScript sources.
-/

namespace AllergyGuard

/-- Severity levels of an allergen, as in the frontend type
`AllergenSeverity` (high, medium, low). -/
inductive Severity where
  | low
  | medium
  | high
deriving DecidableEq

/-- Numeric rank of a severity: high ranks above medium, medium above low. -/
def sevRank : Severity → Nat
  | .low => 0
  | .medium => 1
  | .high => 2

/-- Maximum of two severities under the high over medium over low order. -/
def sevMax (a b : Severity) : Severity :=
  if sevRank a ≤ sevRank b then b else a

/-- Risk levels, as in the frontend field `riskLevel` (LOW, MEDIUM, HIGH). -/
inductive Risk where
  | LOW
  | MEDIUM
  | HIGH
deriving DecidableEq

/-- Modelled from the spec: the 14 fixed allergen categories of the engine
(the backend allergen engine is not under the available sources). -/
inductive AllergenCategory where
  | celery
  | glutenCereals
  | crustaceans
  | eggs
  | fish
  | lupin
  | milk
  | molluscs
  | mustard
  | nuts
  | peanuts
  | sesame
  | soya
  | sulphites
deriving DecidableEq

/-- Modelled from the spec: the 14-category universe in canonical
declaration order. -/
def allCategories : List AllergenCategory :=
  [.celery, .glutenCereals, .crustaceans, .eggs, .fish, .lupin, .milk,
   .molluscs, .mustard, .nuts, .peanuts, .sesame, .soya, .sulphites]

/-- A character that belongs to a word token (letters and digits); the
modelled normalizer splits on everything else. -/
def isWordChar (c : Char) : Bool := c.isAlpha || c.isDigit

/-- Tokenizer worker: `acc` holds the reversed characters of the token
currently being built. -/
def tokenizeAux : List Char → List Char → List String
  | acc, [] => if acc.isEmpty then [] else [String.mk acc.reverse]
  | acc, c :: cs =>
    if isWordChar c then
      tokenizeAux (c :: acc) cs
    else if acc.isEmpty then
      tokenizeAux [] cs
    else
      String.mk acc.reverse :: tokenizeAux [] cs

/-- Modelled from the spec: the ingredient normalizer lower-cases the raw
string and splits it into a sequence of word tokens, dropping punctuation
and collapsing whitespace; it is total, and empty or whitespace-only input
normalizes to the empty token sequence.  The configurable stop-phrase list
and the multi-word phrase dictionary of the spec are not modelled as data;
multi-word indicator phrases are instead matched as contiguous token
subsequences by the matcher below, which serves the same purpose. -/
def normalize (raw : String) : List String :=
  tokenizeAux [] (raw.data.map Char.toLower)

/-- Does the phrase stand at the head of the token list, token by token? -/
def tokLead : List String → List String → Bool
  | [], _ => true
  | _ :: _, [] => false
  | p :: ps, t :: ts => decide (p = t) && tokLead ps ts

/-- Modelled from the spec: whole-token and whole-phrase matching — the
phrase occurs as a contiguous subsequence of the token list.  Raw substring
containment is not used anywhere in the engine model. -/
def tokSub : List String → List String → Bool
  | p, [] => tokLead p []
  | p, t :: ts => tokLead p (t :: ts) || tokSub p ts

/-- Modelled from the spec: an allergen-indicator rule. -/
structure AllergenRule where
  category : AllergenCategory
  indicatorPhrases : List (List String)
  severity : Severity
deriving DecidableEq

/-- The four dietary flags tracked by the engine. -/
inductive DietFlag where
  | vegetarian
  | vegan
  | glutenFree
  | dairyFree
deriving DecidableEq

/-- Modelled from the spec: a dietary-disqualifier rule. -/
structure DietaryRule where
  flag : DietFlag
  disqualifyingPhrases : List (List String)
deriving DecidableEq

/-- Modelled from the spec: the rule catalog owning the allergen rules and
dietary rules. -/
structure RuleCatalog where
  allergenRules : List AllergenRule
  dietaryRules : List DietaryRule
deriving DecidableEq

/-- Modelled from the spec: one ingredient times rule match. -/
structure AllergenFinding where
  category : AllergenCategory
  severity : Severity
  matchedPhrase : List String
  sourceIndex : Nat
deriving DecidableEq

/-- Modelled from the spec: all findings a single ingredient produces
against the catalog — one finding per indicator phrase that occurs as a
whole-token contiguous subsequence of the normalized ingredient. -/
def matchIngredient (cat : RuleCatalog) (idx : Nat) (raw : String) :
    List AllergenFinding :=
  (cat.allergenRules.map (fun r =>
    (r.indicatorPhrases.filter (fun p => tokSub p (normalize raw))).map
      (fun p => { category := r.category, severity := r.severity,
                  matchedPhrase := p, sourceIndex := idx }))).flatten

/-- Modelled from the spec: the findings across a whole ingredient list,
each ingredient matched independently at its position. -/
def findingsOf (cat : RuleCatalog) (ings : List String) :
    List AllergenFinding :=
  (ings.enum.map (fun q => matchIngredient cat q.1 q.2)).flatten

/-- First-seen-order deduplication of a category list. -/
def dedupCats : List AllergenCategory → List AllergenCategory
  | [] => []
  | c :: cs => c :: (dedupCats cs).filter (fun x => decide (x ≠ c))

/-- Modelled from the spec: the maximum severity among the findings of one
category (folded with identity element low). -/
def catSevFold (fs : List AllergenFinding) (c : AllergenCategory) : Severity :=
  ((fs.filter (fun f => decide (f.category = c))).map
    (fun f => f.severity)).foldr sevMax .low

/-- The per-category entries of the aggregate, in first-seen order. -/
def aggEntries (fs : List AllergenFinding) :
    List (AllergenCategory × Severity) :=
  (dedupCats (fs.map (fun f => f.category))).map (fun c => (c, catSevFold fs c))

/-- Modelled from the spec: fold the findings into a deduplicated category
and severity list — the severity of a category is the maximum among its
findings, and the output is ordered severity-descending with first-seen
order inside each severity class. -/
def aggregate (fs : List AllergenFinding) :
    List (AllergenCategory × Severity) :=
  (aggEntries fs).filter (fun p => decide (p.2 = Severity.high)) ++
  (aggEntries fs).filter (fun p => decide (p.2 = Severity.medium)) ++
  (aggEntries fs).filter (fun p => decide (p.2 = Severity.low))

/-- Modelled from the spec: three-tier risk scoring — HIGH on any
high-severity category or on three or more distinct categories, else MEDIUM
when a medium severity is present, else LOW (also for no allergens). -/
def score (agg : List (AllergenCategory × Severity)) : Risk :=
  if agg.any (fun p => decide (p.2 = Severity.high)) || decide (3 ≤ agg.length) then
    .HIGH
  else if agg.any (fun p => decide (p.2 = Severity.medium)) then
    .MEDIUM
  else
    .LOW

/-- Display name of a category, used by the templated recommendations. -/
def catName : AllergenCategory → String
  | .celery => "Celery"
  | .glutenCereals => "Gluten-Cereals"
  | .crustaceans => "Crustaceans"
  | .eggs => "Eggs"
  | .fish => "Fish"
  | .lupin => "Lupin"
  | .milk => "Milk"
  | .molluscs => "Molluscs"
  | .mustard => "Mustard"
  | .nuts => "Nuts"
  | .peanuts => "Peanuts"
  | .sesame => "Sesame"
  | .soya => "Soya"
  | .sulphites => "Sulphites"

/-- Modelled from the spec: one templated recommendation per detected
category, with a leading general-caution line when the risk is HIGH. -/
def recommendationsFor (risk : Risk)
    (agg : List (AllergenCategory × Severity)) : List String :=
  (if risk = Risk.HIGH then
    ["High allergen risk: use caution and confirm details with staff"]
  else []) ++
  agg.map (fun p => "Confirm with staff whether the " ++ catName p.1 ++ " can be omitted")

/-- The four boolean dietary flags of a classification result. -/
structure DietaryFlags where
  vegetarian : Bool
  vegan : Bool
  glutenFree : Bool
  dairyFree : Bool
deriving DecidableEq

/-- Does some phrase of the set occur, whole-token, in the normalized
ingredient? -/
def ingredientDisqualifies (phrases : List (List String)) (s : String) : Bool :=
  phrases.any (fun p => tokSub p (normalize s))

/-- Modelled from the spec: a flag holds unless at least one ingredient
matches some disqualifying phrase of some rule for that flag. -/
def flagHolds (cat : RuleCatalog) (f : DietFlag) (ings : List String) : Bool :=
  !(cat.dietaryRules.any (fun r =>
    decide (r.flag = f) &&
      ings.any (fun s => ingredientDisqualifies r.disqualifyingPhrases s)))

/-- Modelled from the spec: the four flags, evaluated independently. -/
def evaluateFlags (cat : RuleCatalog) (ings : List String) : DietaryFlags :=
  { vegetarian := flagHolds cat .vegetarian ings
    vegan := flagHolds cat .vegan ings
    glutenFree := flagHolds cat .glutenFree ings
    dairyFree := flagHolds cat .dairyFree ings }

/-- Project one flag out of the four. -/
def flagValue (fl : DietaryFlags) : DietFlag → Bool
  | .vegetarian => fl.vegetarian
  | .vegan => fl.vegan
  | .glutenFree => fl.glutenFree
  | .dairyFree => fl.dairyFree

/-- Modelled from the spec: the classification result. -/
structure ClassificationResult where
  allergens : List (AllergenCategory × Severity)
  safeCategories : List AllergenCategory
  dietaryFlags : DietaryFlags
  riskLevel : Risk
  recommendations : List String
deriving DecidableEq

/-- Modelled from the spec: the sole engine operation — classify an ordered
list of ingredient strings (the backend allergen engine is not under the
available sources). -/
def classify (cat : RuleCatalog) (ings : List String) : ClassificationResult :=
  { allergens := aggregate (findingsOf cat ings)
    safeCategories := allCategories.filter (fun c =>
      !((aggregate (findingsOf cat ings)).any (fun p => decide (p.1 = c))))
    dietaryFlags := evaluateFlags cat ings
    riskLevel := score (aggregate (findingsOf cat ings))
    recommendations :=
      recommendationsFor (score (aggregate (findingsOf cat ings)))
        (aggregate (findingsOf cat ings)) }

/-- The `Allergen` interface of the frontend types: name, severity and
description (the description is always supplied where allergens are built,
so it is a plain field here). -/
structure Allergen where
  name : String
  severity : Severity
  description : String
deriving DecidableEq

/-- The `DishReport` interface of the frontend types.  Optional fields that
the analysis service always sets (restaurant, recommendations, scanTime)
are plain fields here. -/
structure DishReport where
  dishName : String
  restaurant : String
  allergens : List Allergen
  safeAllergens : List String
  ingredients : List String
  riskLevel : Risk
  isDairyFree : Bool
  isGlutenFree : Bool
  isNutFree : Bool
  isVegan : Bool
  isVegetarian : Bool
  recommendations : List String
  scanTime : String
deriving DecidableEq

/-- JavaScript string trim on a character list: drop whitespace from both
ends. -/
def trimChars (cs : List Char) : List Char :=
  ((cs.dropWhile Char.isWhitespace).reverse.dropWhile Char.isWhitespace).reverse

/-- The lookup key of `analyzeDish` (geminiservices.ts line 79):
`dishName.toLowerCase().trim()`. -/
def jsNormalize (s : String) : String :=
  String.mk (trimChars (s.data.map Char.toLower))

/-- Mock report for the key "pad thai" (geminiservices.ts lines 11 to 43);
`now` stands for the clock reading `new Date().toISOString()`. -/
def padThaiReport (now : String) : DishReport :=
  { dishName := "Pad Thai"
    restaurant := "Thai Street Kitchen"
    allergens :=
      [ { name := "Peanuts", severity := .high,
          description := "Contains crushed peanuts as topping" }
      , { name := "Shellfish", severity := .medium,
          description := "Shrimp in sauce" }
      , { name := "Eggs", severity := .low,
          description := "Used in noodle preparation" } ]
    safeAllergens := ["Dairy", "Gluten", "Soy", "Tree Nuts"]
    ingredients := ["Rice noodles", "Shrimp", "Eggs", "Peanuts",
      "Tamarind sauce", "Fish sauce", "Bean sprouts", "Green onions", "Lime"]
    riskLevel := .HIGH
    isDairyFree := true
    isGlutenFree := false
    isNutFree := false
    isVegan := false
    isVegetarian := false
    recommendations := ["Request no peanuts if allergic",
      "Ask for vegetarian version without shrimp",
      "Check if sauce contains gluten"]
    scanTime := now }

/-- Mock report for the key "burger" (geminiservices.ts lines 44 to 76);
note the hard-coded riskLevel MEDIUM next to a high-severity Gluten entry. -/
def burgerReport (now : String) : DishReport :=
  { dishName := "Classic Burger"
    restaurant := "Burger House"
    allergens :=
      [ { name := "Gluten", severity := .high, description := "Wheat bun" }
      , { name := "Dairy", severity := .medium, description := "Cheese and mayo" }
      , { name := "Eggs", severity := .low, description := "In bun and sauce" } ]
    safeAllergens := ["Nuts", "Shellfish", "Soy"]
    ingredients := ["Beef patty", "Wheat bun", "Cheddar cheese", "Lettuce",
      "Tomato", "Onion", "Pickles", "Mayo", "Ketchup"]
    riskLevel := .MEDIUM
    isDairyFree := false
    isGlutenFree := false
    isNutFree := true
    isVegan := false
    isVegetarian := false
    recommendations := ["Request lettuce wrap instead of bun for gluten-free",
      "Ask for no cheese if dairy-free",
      "Plant-based patty available"]
    scanTime := now }

/-- Default report of `analyzeDish` for unknown dish names (geminiservices.ts
lines 82 to 98): the raw dish name is stored unchanged, and the four
vegetarian, vegan, gluten-free and dairy-free flags are hard-coded false. -/
def defaultReport (now dishName : String) : DishReport :=
  { dishName := dishName
    restaurant := "Unknown Restaurant"
    allergens :=
      [ { name := "Gluten", severity := .medium, description := "May contain wheat" } ]
    safeAllergens := ["Nuts", "Dairy", "Shellfish"]
    ingredients := ["Unknown ingredients - please verify with staff"]
    riskLevel := .MEDIUM
    isDairyFree := false
    isGlutenFree := false
    isNutFree := true
    isVegan := false
    isVegetarian := false
    recommendations := ["Please verify ingredients with restaurant staff"]
    scanTime := now }

/-- The mock table lookup of `analyzeDish`: the record access
`mockData[normalizedName]` on the two-entry table. -/
def mockLookup (now key : String) : Option DishReport :=
  if key = "pad thai" then some (padThaiReport now)
  else if key = "burger" then some (burgerReport now)
  else none

/-- `analyzeDish` (geminiservices.ts lines 5 to 99): normalize the dish
name, look it up in the mock table, and fall back to the default report
(the JavaScript or-else on line 82); `now` stands for the clock reading
`new Date().toISOString()` taken during the call. -/
def analyzeDish (now dishName : String) : DishReport :=
  (mockLookup now (jsNormalize dishName)).getD (defaultReport now dishName)

/-- `analyzeDish` seen as a fallible computation: its body contains no
throwing path, so the embedding always returns `Except.ok`. -/
def analyzeDishE (now dishName : String) : Except String DishReport :=
  match mockLookup now (jsNormalize dishName) with
  | some r => Except.ok r
  | none => Except.ok (defaultReport now dishName)

/-- Does the pattern stand at the head of the text, character by character? -/
def leadChars : List Char → List Char → Bool
  | [], _ => true
  | _ :: _, [] => false
  | p :: ps, t :: ts => decide (p = t) && leadChars ps ts

/-- Does the pattern occur anywhere in the text (substring containment)? -/
def subChars : List Char → List Char → Bool
  | p, [] => leadChars p []
  | p, t :: ts => leadChars p (t :: ts) || subChars p ts

/-- JavaScript `text.includes(pattern)`. -/
def strIncludes (text pat : String) : Bool := subChars pat.data text.data

/-- JavaScript `s.toLowerCase()`. -/
def lowerStr (s : String) : String := String.mk (s.data.map Char.toLower)

/-- JavaScript `s.charAt(0).toUpperCase() + s.slice(1)` (geminiservices.ts
line 114); the empty string maps to itself. -/
def capitalizeFirst (s : String) : String :=
  match s.data with
  | [] => ""
  | c :: cs => String.mk (c.toUpper :: cs)

/-- The allergen object built per detected allergen name in
`analyzeDishFromBackend` (geminiservices.ts lines 112 to 118): the severity
is the constant high for every detected name. -/
def mapDetectedAllergen (n : String) : Allergen :=
  { name := capitalizeFirst n
    severity := .high
    description := "Contains " ++ n }

/-- The `isNutFree` computation of `analyzeDishFromBackend`
(geminiservices.ts line 129):
`allergens.every(a => !a.name.toLowerCase().includes("nut"))`. -/
def computeIsNutFree (allergens : List Allergen) : Bool :=
  allergens.all (fun a => !(strIncludes (lowerStr a.name) "nut"))

/-- The fields of the backend scan response consumed by
`analyzeDishFromBackend` (geminiservices.ts lines 109 to 133). -/
structure BackendScanData where
  dishName : String
  restaurantName : String
  allergensDetected : List String
  ingredients : List String
  riskLevel : Risk
  dairyFree : Bool
  glutenFree : Bool
  vegan : Bool
  vegetarian : Bool
  recommendations : List String
deriving DecidableEq

/-- `analyzeDishFromBackend` (geminiservices.ts lines 102 to 135): throws
when the response is not ok, otherwise transforms the backend payload into
a `DishReport` — every detected allergen gets the constant severity high,
`safeAllergens` is the constant empty list, and `isNutFree` is derived by
substring containment of "nut" in the lower-cased allergen names. -/
def analyzeDishFromBackend (responseOk : Bool) (data : BackendScanData)
    (now : String) : Except String DishReport :=
  if !responseOk then
    Except.error "Failed to fetch dish information"
  else
    Except.ok
      { dishName := data.dishName
        restaurant := data.restaurantName
        allergens := data.allergensDetected.map mapDetectedAllergen
        safeAllergens := []
        ingredients := data.ingredients
        riskLevel := data.riskLevel
        isDairyFree := data.dairyFree
        isGlutenFree := data.glutenFree
        isNutFree := computeIsNutFree (data.allergensDetected.map mapDetectedAllergen)
        isVegan := data.vegan
        isVegetarian := data.vegetarian
        recommendations := data.recommendations
        scanTime := now }

/-- `getIcon` from allergen-badge.tsx (lines 34 to 43): icon choice by
substring containment over the lower-cased allergen name. -/
def getIcon (name : String) : String :=
  if strIncludes (lowerStr name) "nut" || strIncludes (lowerStr name) "peanut" then
    "eco"
  else if strIncludes (lowerStr name) "dairy" || strIncludes (lowerStr name) "milk" then
    "water_drop"
  else if strIncludes (lowerStr name) "gluten" || strIncludes (lowerStr name) "wheat" then
    "grain"
  else if strIncludes (lowerStr name) "shellfish" || strIncludes (lowerStr name) "fish" then
    "set_meal"
  else if strIncludes (lowerStr name) "egg" then
    "egg"
  else if strIncludes (lowerStr name) "soy" then
    "nature"
  else
    "warning"

/-- The shapes the `ResultPage` component can render: the no-data fallback
with its message, or the report view with the fields the component reads. -/
inductive ResultView where
  | noData (message : String)
  | reportView (dishName : String) (riskLevel : Risk) (allergenCount : Nat)
      (showsAllClear : Bool)
deriving DecidableEq

/-- `ResultPage` from landing.jsx (lines 152 to 165 and following): a null
report is caught by the early guard and yields the no-data fallback without
touching any report field; a present report is rendered from its fields. -/
def renderResultPage (report : Option DishReport) : Except String ResultView :=
  match report with
  | none => Except.ok (ResultView.noData "No scan data available")
  | some r =>
      Except.ok (ResultView.reportView r.dishName r.riskLevel
        r.allergens.length (decide (r.allergens.length = 0)))

/-- A small concrete catalog used to exercise the modelled engine. -/
def sampleCatalog : RuleCatalog :=
  { allergenRules :=
      [ { category := .nuts
          indicatorPhrases := [["nut"], ["nuts"], ["tree", "nut"]]
          severity := .high }
      , { category := .milk
          indicatorPhrases := [["milk"]]
          severity := .medium }
      , { category := .eggs
          indicatorPhrases := [["egg"], ["eggs"]]
          severity := .low } ]
    dietaryRules :=
      [ { flag := .vegan, disqualifyingPhrases := [["milk"], ["egg"], ["eggs"]] }
      , { flag := .dairyFree, disqualifyingPhrases := [["milk"]] } ] }

/-- A catalog whose only rule is a Nuts rule with the indicator phrase
"nut". -/
def nutsOnlyCatalog : RuleCatalog :=
  { allergenRules :=
      [ { category := .nuts, indicatorPhrases := [["nut"]], severity := .high } ]
    dietaryRules := [] }

/-- A backend scan payload with no detected allergens. -/
def emptyScanData : BackendScanData :=
  { dishName := "Plain Rice"
    restaurantName := "Rice House"
    allergensDetected := []
    ingredients := ["rice", "water"]
    riskLevel := .LOW
    dairyFree := true
    glutenFree := true
    vegan := true
    vegetarian := true
    recommendations := [] }

/-- A backend scan payload whose only detected allergen is eggs. -/
def eggScanData : BackendScanData :=
  { dishName := "Omelette"
    restaurantName := "Egg House"
    allergensDetected := ["eggs"]
    ingredients := ["eggs", "butter"]
    riskLevel := .LOW
    dairyFree := false
    glutenFree := true
    vegan := false
    vegetarian := true
    recommendations := [] }

/-- A backend scan payload whose only detected allergen name is coconut. -/
def coconutScanData : BackendScanData :=
  { dishName := "Coconut Curry"
    restaurantName := "Curry House"
    allergensDetected := ["coconut"]
    ingredients := ["coconut milk", "rice"]
    riskLevel := .LOW
    dairyFree := true
    glutenFree := true
    vegan := true
    vegetarian := true
    recommendations := [] }

/-- The payload of an ok `Except`, when there is one. -/
def okValue (e : Except String DishReport) : Option DishReport :=
  match e with
  | .ok r => some r
  | .error _ => none

/-- The maximum with low is the other severity. -/
theorem sevMax_low (a : Severity) : sevMax a .low = a := by
  cases a <;> rfl

/-- The maximum of two severities is one of them. -/
theorem sevMax_choice (a b : Severity) : sevMax a b = a ∨ sevMax a b = b := by
  cases a <;> cases b <;> decide

/-- The left argument is below the maximum. -/
theorem sevRank_le_sevMax_left (a b : Severity) :
    sevRank a ≤ sevRank (sevMax a b) := by
  cases a <;> cases b <;> decide

/-- The right argument is below the maximum. -/
theorem sevRank_le_sevMax_right (a b : Severity) :
    sevRank b ≤ sevRank (sevMax a b) := by
  cases a <;> cases b <;> decide

/-- Severity rank determines the severity. -/
theorem sevRank_inj {a b : Severity} (h : sevRank a = sevRank b) : a = b := by
  cases a <;> cases b <;> simp_all [sevRank]

/-- Every member of a severity list is bounded by the fold of `sevMax`. -/
theorem foldr_sevMax_le (xs : List Severity) (x : Severity) (hx : x ∈ xs) :
    sevRank x ≤ sevRank (xs.foldr sevMax .low) := by
  induction xs with
  | nil => cases hx
  | cons y ys ih =>
    rw [List.foldr_cons]
    rcases List.mem_cons.mp hx with rfl | hmem
    · exact sevRank_le_sevMax_left _ _
    · exact Nat.le_trans (ih hmem) (sevRank_le_sevMax_right _ _)

/-- The fold of `sevMax` over a nonempty severity list is attained. -/
theorem foldr_sevMax_attained (xs : List Severity) :
    xs = [] ∨ xs.foldr sevMax .low ∈ xs := by
  induction xs with
  | nil => exact Or.inl rfl
  | cons y ys ih =>
    refine Or.inr ?_
    rw [List.foldr_cons]
    rcases ih with rfl | hmem
    · simp [sevMax_low]
    · rcases sevMax_choice y (ys.foldr sevMax .low) with h | h <;> rw [h]
      · exact List.mem_cons_self _ _
      · exact List.mem_cons_of_mem _ hmem

/-- Every finding of a category is bounded by the folded severity of that
category. -/
theorem catSevFold_le (fs : List AllergenFinding) (c : AllergenCategory)
    (f : AllergenFinding) (hf : f ∈ fs) (hc : f.category = c) :
    sevRank f.severity ≤ sevRank (catSevFold fs c) := by
  apply foldr_sevMax_le
  refine List.mem_map.mpr ⟨f, List.mem_filter.mpr ⟨hf, ?_⟩, rfl⟩
  simp only [decide_eq_true_eq]
  exact hc

/-- When a category occurs among the findings, its folded severity is the
severity of one of its findings. -/
theorem catSevFold_attained (fs : List AllergenFinding) (c : AllergenCategory)
    (h : ∃ f ∈ fs, f.category = c) :
    ∃ f ∈ fs, f.category = c ∧ f.severity = catSevFold fs c := by
  obtain ⟨f0, hf0, hc0⟩ := h
  have hmem0 : f0.severity ∈
      (fs.filter (fun f => decide (f.category = c))).map (fun f => f.severity) := by
    refine List.mem_map.mpr ⟨f0, List.mem_filter.mpr ⟨hf0, ?_⟩, rfl⟩
    simp only [decide_eq_true_eq]
    exact hc0
  rcases foldr_sevMax_attained
      ((fs.filter (fun f => decide (f.category = c))).map (fun f => f.severity)) with
    heq | hmem
  · rw [heq] at hmem0
    cases hmem0
  · obtain ⟨f1, hf1, hs1⟩ := List.mem_map.mp hmem
    have hf1m := List.mem_filter.mp hf1
    refine ⟨f1, hf1m.1, ?_, hs1⟩
    have := hf1m.2
    simp only [decide_eq_true_eq] at this
    exact this

/-- Deduplication preserves membership. -/
theorem mem_dedupCats (l : List AllergenCategory) (c : AllergenCategory) :
    c ∈ dedupCats l ↔ c ∈ l := by
  induction l with
  | nil => simp [dedupCats]
  | cons a as ih =>
    simp only [dedupCats, List.mem_cons, List.mem_filter, decide_eq_true_eq]
    constructor
    · rintro (rfl | ⟨hmem, _⟩)
      · exact Or.inl rfl
      · exact Or.inr (ih.mp hmem)
    · rintro (rfl | hmem)
      · exact Or.inl rfl
      · by_cases hac : c = a
        · exact Or.inl hac
        · exact Or.inr ⟨ih.mpr hmem, hac⟩

/-- Membership in the per-category entries of the aggregate. -/
theorem mem_aggEntries (fs : List AllergenFinding) (c : AllergenCategory)
    (s : Severity) :
    (c, s) ∈ aggEntries fs ↔
      c ∈ fs.map (fun f => f.category) ∧ s = catSevFold fs c := by
  unfold aggEntries
  rw [List.mem_map]
  constructor
  · rintro ⟨a, ha, heq⟩
    injection heq with h1 h2
    subst h1
    exact ⟨(mem_dedupCats _ _).mp ha, h2.symm⟩
  · rintro ⟨hc, rfl⟩
    exact ⟨c, (mem_dedupCats _ _).mpr hc, rfl⟩

/-- The severity-ordered aggregate has the same members as its entries. -/
theorem mem_aggregate (fs : List AllergenFinding) (c : AllergenCategory)
    (s : Severity) :
    (c, s) ∈ aggregate fs ↔ (c, s) ∈ aggEntries fs := by
  unfold aggregate
  simp only [List.mem_append, List.mem_filter, decide_eq_true_eq]
  constructor
  · rintro ((⟨h, _⟩ | ⟨h, _⟩) | ⟨h, _⟩) <;> exact h
  · intro h
    cases s with
    | low => exact Or.inr ⟨h, rfl⟩
    | medium => exact Or.inl (Or.inr ⟨h, rfl⟩)
    | high => exact Or.inl (Or.inl ⟨h, rfl⟩)

/-- Every category value lies in the 14-category universe list. -/
theorem allCategories_complete (c : AllergenCategory) : c ∈ allCategories := by
  cases c <;> decide

/-- An ingredient matching no indicator phrase contributes no finding. -/
theorem matchIngredient_eq_nil (cat : RuleCatalog) (idx : Nat) (s : String)
    (h : ∀ r ∈ cat.allergenRules, ∀ p ∈ r.indicatorPhrases,
      tokSub p (normalize s) = false) :
    matchIngredient cat idx s = [] := by
  unfold matchIngredient
  rw [List.flatten_eq_nil_iff]
  intro l hl
  obtain ⟨r, hr, rfl⟩ := List.mem_map.mp hl
  have hfil : r.indicatorPhrases.filter (fun p => tokSub p (normalize s)) = [] := by
    rw [List.filter_eq_nil_iff]
    intro p hp
    rw [h r hr p hp]
    exact Bool.false_ne_true
  rw [hfil]
  rfl

/-- An ingredient list matching no indicator phrase yields no findings. -/
theorem findingsOf_eq_nil (cat : RuleCatalog) (ings : List String)
    (h : ∀ s ∈ ings, ∀ r ∈ cat.allergenRules, ∀ p ∈ r.indicatorPhrases,
      tokSub p (normalize s) = false) :
    findingsOf cat ings = [] := by
  unfold findingsOf
  rw [List.flatten_eq_nil_iff]
  intro l hl
  obtain ⟨q, hq, rfl⟩ := List.mem_map.mp hl
  exact matchIngredient_eq_nil cat q.1 q.2
    (h q.2 (List.snd_mem_of_mem_enum hq))

/-- With no findings the classification is the all-clear LOW result. -/
theorem classify_no_findings (cat : RuleCatalog) (ings : List String)
    (h : findingsOf cat ings = []) :
    (classify cat ings).allergens = [] ∧
      (classify cat ings).riskLevel = Risk.LOW ∧
      (classify cat ings).recommendations = [] ∧
      (classify cat ings).safeCategories = allCategories := by
  simp [classify, h, aggregate, aggEntries, dedupCats, score, recommendationsFor]

/-- Every flag holds on the empty ingredient list. -/
theorem flagHolds_nil (cat : RuleCatalog) (f : DietFlag) :
    flagHolds cat f [] = true := by
  simp [flagHolds]

/-- The report of `analyzeDish` carries the clock reading it was built
with. -/
theorem analyzeDish_scanTime (now name : String) :
    (analyzeDish now name).scanTime = now := by
  unfold analyzeDish mockLookup
  split_ifs <;> rfl

/-- C1 counterexample: the claim that the derived nut-free status is not
computed by substring containment fails on the source — in
`analyzeDishFromBackend` the detected name "coconut" contains "nut" only as
a raw substring, never as a whole token of its normalization, yet it forces
`isNutFree = false` in the returned report. -/
theorem c1_counterexample :
    strIncludes (lowerStr "Coconut") "nut" = true ∧
    (okValue (analyzeDishFromBackend true coconutScanData "T0")).map
      (fun r => r.isNutFree) = some false ∧
    tokSub ["nut"] (normalize "coconut") = false :=
  ⟨by decide, by decide, by decide⟩

/-- C1 (amended): in the spec-modelled engine every allergen finding comes
from a whole-token or whole-phrase occurrence of an indicator phrase in the
normalized ingredient, and a catalog whose Nuts rule carries the indicator
phrase "nut" yields no finding at all for the ingredient "nutmeg"; the
frontend `analyzeDishFromBackend`, however, derives its nut-free status by
substring containment of "nut" in lower-cased allergen names, as the
"coconut" payload shows. -/
theorem c1_whole_token_matching :
    (∀ (cat : RuleCatalog) (idx : Nat) (s : String) (f : AllergenFinding),
      f ∈ matchIngredient cat idx s →
        tokSub f.matchedPhrase (normalize s) = true) ∧
    matchIngredient nutsOnlyCatalog 0 "nutmeg" = [] ∧
    ((okValue (analyzeDishFromBackend true coconutScanData "T0")).map
        (fun r => r.isNutFree) = some false ∧
      tokSub ["nut"] (normalize "coconut") = false) := by
  refine ⟨?_, by decide, by decide, by decide⟩
  intro cat idx s f hf
  unfold matchIngredient at hf
  rw [List.mem_flatten] at hf
  obtain ⟨l, hl, hfl⟩ := hf
  obtain ⟨r, hr, rfl⟩ := List.mem_map.mp hl
  obtain ⟨p, hp, rfl⟩ := List.mem_map.mp hfl
  exact (List.mem_filter.mp hp).2

/-- C1 witness: a concrete finding of the sample catalog, produced for the
ingredient "whole milk", matches on a whole token. -/
theorem c1_whole_token_matching_witness :
    tokSub (AllergenFinding.matchedPhrase
        { category := .milk, severity := .medium, matchedPhrase := ["milk"],
          sourceIndex := 0 })
      (normalize "whole milk") = true :=
  c1_whole_token_matching.1 sampleCatalog 0 "whole milk"
    { category := .milk, severity := .medium, matchedPhrase := ["milk"],
      sourceIndex := 0 }
    (by decide)

/-- C2 counterexample: the mock report of `analyzeDish` for "Burger"
contains a high-severity allergen and is nevertheless reported MEDIUM,
refuting the tiering law on the source. -/
theorem c2_counterexample :
    (analyzeDish "2024-05-01T12:00:00.000Z" "Burger").riskLevel = Risk.MEDIUM ∧
    (analyzeDish "2024-05-01T12:00:00.000Z" "Burger").allergens.any
      (fun a => decide (a.severity = Severity.high)) = true :=
  ⟨by decide, by decide⟩

/-- C2 (amended): the risk tiering law holds of the spec-modelled scorer —
HIGH exactly when some category has severity high or at least three
categories are present, MEDIUM exactly when neither holds and a medium
severity is present, LOW otherwise; the frontend mock `analyzeDish`
hard-codes its risk levels instead and violates the law on "burger". -/
theorem c2_risk_tiering (agg : List (AllergenCategory × Severity)) :
    (score agg = Risk.HIGH ↔
      (∃ p ∈ agg, p.2 = Severity.high) ∨ 3 ≤ agg.length) ∧
    (score agg = Risk.MEDIUM ↔
      (¬((∃ p ∈ agg, p.2 = Severity.high) ∨ 3 ≤ agg.length)) ∧
        ∃ p ∈ agg, p.2 = Severity.medium) ∧
    (score agg = Risk.LOW ↔
      (¬((∃ p ∈ agg, p.2 = Severity.high) ∨ 3 ≤ agg.length)) ∧
        ¬∃ p ∈ agg, p.2 = Severity.medium) := by
  unfold score
  split_ifs with h1 h2
  · simp only [Bool.or_eq_true, List.any_eq_true, decide_eq_true_eq] at h1
    exact ⟨iff_of_true rfl h1,
      iff_of_false (by decide) (fun hc => hc.1 h1),
      iff_of_false (by decide) (fun hc => hc.1 h1)⟩
  · simp only [Bool.or_eq_true, List.any_eq_true, decide_eq_true_eq] at h1 h2
    exact ⟨iff_of_false (by decide) h1,
      iff_of_true rfl ⟨h1, h2⟩,
      iff_of_false (by decide) (fun hc => hc.2 h2)⟩
  · simp only [Bool.or_eq_true, List.any_eq_true, decide_eq_true_eq] at h1 h2
    exact ⟨iff_of_false (by decide) h1,
      iff_of_false (by decide) (fun hc => h2 hc.2),
      iff_of_true rfl ⟨h1, h2⟩⟩

/-- C3 counterexample: the source transform gives every detected allergen
the constant severity high — the "eggs" payload is reported at severity
high even though the maximum severity among a low-severity Eggs finding is
low. -/
theorem c3_counterexample :
    (okValue (analyzeDishFromBackend true eggScanData "T0")).map
      (fun r => r.allergens.map (fun a => a.severity)) = some [Severity.high] ∧
    catSevFold
      [{ category := .eggs, severity := .low, matchedPhrase := ["eggs"],
         sourceIndex := 0 }] .eggs = Severity.low :=
  ⟨by decide, by decide⟩

/-- C3 (amended): in the spec-modelled aggregator a pair of category and
severity belongs to the aggregate exactly when the severity is attained by
a finding of that category and bounds every finding of that category — the
reported severity is the maximum of the findings; the frontend
`analyzeDishFromBackend` instead replaces every severity by the constant
high. -/
theorem c3_severity_aggregation (fs : List AllergenFinding)
    (c : AllergenCategory) (s : Severity) :
    (c, s) ∈ aggregate fs ↔
      (∃ f ∈ fs, f.category = c ∧ f.severity = s) ∧
        ∀ f ∈ fs, f.category = c → sevRank f.severity ≤ sevRank s := by
  rw [mem_aggregate, mem_aggEntries]
  constructor
  · rintro ⟨hc, rfl⟩
    obtain ⟨f0, hf0, hc0⟩ := List.mem_map.mp hc
    obtain ⟨f, hf, hcat, hsev⟩ := catSevFold_attained fs c ⟨f0, hf0, hc0⟩
    exact ⟨⟨f, hf, hcat, hsev⟩, fun g hg hgc => catSevFold_le fs c g hg hgc⟩
  · rintro ⟨⟨f0, hf0, hc0, hs0⟩, hub⟩
    refine ⟨List.mem_map.mpr ⟨f0, hf0, hc0⟩, ?_⟩
    have h1 : sevRank s ≤ sevRank (catSevFold fs c) := by
      have := catSevFold_le fs c f0 hf0 hc0
      rw [hs0] at this
      exact this
    have h2 : sevRank (catSevFold fs c) ≤ sevRank s := by
      obtain ⟨f1, hf1, hc1, hs1⟩ := catSevFold_attained fs c ⟨f0, hf0, hc0⟩
      have := hub f1 hf1 hc1
      rw [hs1] at this
      exact this
    exact sevRank_inj (Nat.le_antisymm h1 h2)

/-- Membership in the safe list of a classification result: a category is
safe exactly when it carries no aggregated severity. -/
theorem mem_safeCategories (cat : RuleCatalog) (ings : List String)
    (c : AllergenCategory) :
    c ∈ (classify cat ings).safeCategories ↔
      ¬∃ s, (c, s) ∈ (classify cat ings).allergens := by
  show c ∈ allCategories.filter (fun c =>
      !((aggregate (findingsOf cat ings)).any (fun p => decide (p.1 = c)))) ↔
    ¬∃ s, (c, s) ∈ aggregate (findingsOf cat ings)
  rw [List.mem_filter]
  constructor
  · rintro ⟨-, hpred⟩ ⟨s, hs⟩
    rw [Bool.not_eq_true'] at hpred
    exact List.any_eq_false.mp hpred (c, s) hs (by simp)
  · intro hno
    refine ⟨allCategories_complete c, ?_⟩
    rw [Bool.not_eq_true', List.any_eq_false]
    rintro ⟨a, b⟩ hab hdec
    rw [decide_eq_true_eq] at hdec
    subst hdec
    exact hno ⟨b, hab⟩

/-- C4 counterexample: the source transform returns the constant empty safe
list — the payload with zero detected allergens yields an empty safe list
together with an empty allergen list, although the universe has 14
categories, refuting both the complement equation and the only-when-all-14
emptiness condition. -/
theorem c4_counterexample :
    (okValue (analyzeDishFromBackend true emptyScanData "T0")).map
      (fun r => (r.allergens.length, r.safeAllergens.length)) = some (0, 0) ∧
    allCategories.length = 14 :=
  ⟨by decide, by decide⟩

/-- C4 (amended): in the spec-modelled engine the safe list is the fixed
14-category universe minus the detected categories, in the declaration
order of the universe (it is a sublist of the universe list), detected and
safe categories partition the universe, and the safe list is empty exactly
when every category is detected; the frontend `analyzeDishFromBackend`
instead returns a constant empty safe list, and the mock reports carry
hand-written lists that are not complements. -/
theorem c4_safe_complement (cat : RuleCatalog) (ings : List String) :
    (∀ c : AllergenCategory,
      ((∃ s, (c, s) ∈ (classify cat ings).allergens) ↔
        c ∉ (classify cat ings).safeCategories)) ∧
    ((classify cat ings).safeCategories.Sublist allCategories) ∧
    ((classify cat ings).safeCategories = [] ↔
      ∀ c : AllergenCategory, ∃ s, (c, s) ∈ (classify cat ings).allergens) := by
  refine ⟨?_, ?_, ?_⟩
  · intro c
    rw [mem_safeCategories]
    exact not_not.symm
  · exact List.filter_sublist _
  · rw [List.eq_nil_iff_forall_not_mem]
    constructor
    · intro hall c
      have hns := hall c
      rw [mem_safeCategories] at hns
      exact not_not.mp hns
    · intro hex c
      rw [mem_safeCategories]
      exact not_not.mpr (hex c)

/-- C5 counterexample: for an unknown dish name, whose mock ingredients
match nothing, the default report of `analyzeDish` hard-codes all four
dietary flags to false, refuting the all-true default of the claim. -/
theorem c5_counterexample :
    (analyzeDish "2024-05-01T12:00:00.000Z" "qqq unknown dish").isVegetarian = false ∧
    (analyzeDish "2024-05-01T12:00:00.000Z" "qqq unknown dish").isVegan = false ∧
    (analyzeDish "2024-05-01T12:00:00.000Z" "qqq unknown dish").isGlutenFree = false ∧
    (analyzeDish "2024-05-01T12:00:00.000Z" "qqq unknown dish").isDairyFree = false :=
  ⟨by decide, by decide, by decide, by decide⟩

/-- C5 (amended): in the spec-modelled engine each of the four flags of the
classification result is true exactly when no ingredient matches, on a
whole-token boundary, any phrase of any disqualifier rule for that flag —
so input matching nothing yields all four flags true; the mock default
branch of `analyzeDish` instead hard-codes the four flags to false for
unknown dishes. -/
theorem c5_dietary_flag_law (cat : RuleCatalog) (ings : List String)
    (f : DietFlag) :
    flagValue (classify cat ings).dietaryFlags f = true ↔
      ¬∃ r ∈ cat.dietaryRules, r.flag = f ∧
          ∃ s ∈ ings, ∃ p ∈ r.disqualifyingPhrases,
            tokSub p (normalize s) = true := by
  have hfv : flagValue (classify cat ings).dietaryFlags f = flagHolds cat f ings := by
    cases f <;> rfl
  rw [hfv]
  unfold flagHolds
  constructor
  · intro hflag hex
    obtain ⟨r, hr, hrf, s, hsi, p, hpp, htok⟩ := hex
    rw [Bool.not_eq_true'] at hflag
    apply List.any_eq_false.mp hflag r hr
    rw [Bool.and_eq_true]
    refine ⟨by rw [decide_eq_true_eq]; exact hrf, ?_⟩
    rw [List.any_eq_true]
    refine ⟨s, hsi, ?_⟩
    unfold ingredientDisqualifies
    rw [List.any_eq_true]
    exact ⟨p, hpp, htok⟩
  · intro hno
    rw [Bool.not_eq_true', List.any_eq_false]
    intro r hr hand
    rw [Bool.and_eq_true, decide_eq_true_eq] at hand
    obtain ⟨hrf, hany⟩ := hand
    rw [List.any_eq_true] at hany
    obtain ⟨s, hsi, hdisq⟩ := hany
    unfold ingredientDisqualifies at hdisq
    rw [List.any_eq_true] at hdisq
    obtain ⟨p, hpp, htok⟩ := hdisq
    exact hno ⟨r, hr, hrf, s, hsi, p, hpp, htok⟩

/-- C6: classifying the empty ingredient list yields the vacuous result —
no allergens, the full safe universe, all four flags true, risk LOW and no
recommendations; stated for the spec-modelled engine with an arbitrary
catalog. -/
theorem c6_vacuous_classify (cat : RuleCatalog) :
    classify cat [] =
      { allergens := []
        safeCategories := allCategories
        dietaryFlags :=
          { vegetarian := true, vegan := true, glutenFree := true, dairyFree := true }
        riskLevel := Risk.LOW
        recommendations := [] } := by
  obtain ⟨h1, h2, h3, h4⟩ := classify_no_findings cat [] rfl
  have hflags : (classify cat []).dietaryFlags =
      { vegetarian := true, vegan := true, glutenFree := true, dairyFree := true } := by
    show evaluateFlags cat [] = _
    unfold evaluateFlags
    rw [flagHolds_nil, flagHolds_nil, flagHolds_nil, flagHolds_nil]
  have heta : classify cat [] =
      ⟨(classify cat []).allergens, (classify cat []).safeCategories,
        (classify cat []).dietaryFlags, (classify cat []).riskLevel,
        (classify cat []).recommendations⟩ := rfl
  rw [heta, h1, h2, h3, h4, hflags]

/-- C7: the analysis never fails — the mock `analyzeDish` has no throwing
path and always produces its report, and in the spec-modelled engine an
ingredient list whose items match no indicator phrase degrades to the
all-clear LOW result with no findings rather than to an error. -/
theorem c7_total_and_degrades :
    (∀ now name, analyzeDishE now name = Except.ok (analyzeDish now name)) ∧
    (∀ (cat : RuleCatalog) (ings : List String),
      (∀ s ∈ ings, ∀ r ∈ cat.allergenRules, ∀ p ∈ r.indicatorPhrases,
        tokSub p (normalize s) = false) →
      (classify cat ings).allergens = [] ∧
        (classify cat ings).riskLevel = Risk.LOW ∧
        (classify cat ings).recommendations = [] ∧
        (classify cat ings).safeCategories = allCategories) := by
  constructor
  · intro now name
    unfold analyzeDishE analyzeDish
    cases mockLookup now (jsNormalize name) <;> rfl
  · intro cat ings h
    exact classify_no_findings cat ings (findingsOf_eq_nil cat ings h)

/-- C7 witness: the gibberish ingredient list matches nothing in the sample
catalog, and the classification degrades to the all-clear LOW result. -/
theorem c7_total_and_degrades_witness :
    (classify sampleCatalog ["xyzzy gibberish"]).allergens = [] ∧
    (classify sampleCatalog ["xyzzy gibberish"]).riskLevel = Risk.LOW := by
  have h := c7_total_and_degrades.2 sampleCatalog ["xyzzy gibberish"] (by decide)
  exact ⟨h.1, h.2.1⟩

/-- C8 counterexample: two runs of `analyzeDish` on the same dish name with
different clock readings produce different reports — the `scanTime` field
records the clock — so repeated runs are not byte-identical including
timestamps. -/
theorem c8_counterexample :
    analyzeDish "2024-05-01T12:00:00.000Z" "Pasta" ≠
      analyzeDish "2024-05-01T12:00:01.000Z" "Pasta" := by
  decide

/-- C8 (amended): the report of `analyzeDish` is a pure function of the
dish name and the clock reading — two runs agree exactly when the clock
readings agree, and runs at different instants differ in `scanTime`. -/
theorem c8_determinism (t1 t2 name : String) :
    analyzeDish t1 name = analyzeDish t2 name ↔ t1 = t2 := by
  constructor
  · intro h
    have h1 := analyzeDish_scanTime t1 name
    have h2 := analyzeDish_scanTime t2 name
    rw [← h1, ← h2, h]
  · intro h
    rw [h]

/-- C9: normalization of the dish name is used only as the lookup key —
when the normalized name hits no mock entry, the default report stores the
raw dish name unchanged. -/
theorem c9_raw_name_preserved (now name : String)
    (h1 : jsNormalize name ≠ "pad thai") (h2 : jsNormalize name ≠ "burger") :
    (analyzeDish now name).dishName = name := by
  unfold analyzeDish mockLookup
  rw [if_neg h1, if_neg h2]
  rfl

/-- C9 witness: a dish name with surrounding whitespace misses the mock
table and comes back verbatim, while its lookup key was lower-cased and
trimmed. -/
theorem c9_raw_name_preserved_witness :
    (analyzeDish "2024-05-01T12:00:00.000Z" "  Mystery Stew  ").dishName =
      "  Mystery Stew  " :=
  c9_raw_name_preserved "2024-05-01T12:00:00.000Z" "  Mystery Stew  "
    (by decide) (by decide)

/-- C10: the ResultPage render is total on an optional report — the null
report is caught by the early guard and yields the no-data fallback built
from no report field, and a present report renders from its fields. -/
theorem c10_null_report_fallback :
    renderResultPage none = Except.ok (ResultView.noData "No scan data available") ∧
    ∀ r : DishReport, renderResultPage (some r) =
      Except.ok (ResultView.reportView r.dishName r.riskLevel
        r.allergens.length (decide (r.allergens.length = 0))) :=
  ⟨rfl, fun _ => rfl⟩

end AllergyGuard
